import Mathlib

/-!
Verification of the Vectra SaaS API client (`src/index.js`).

Shallow embedding of the token-lifecycle and paginated-fetch engine of
the client.  The repository ships two near-identical class definitions
(separated in `index.js` by a document separator); where they diverge we
embed both and suffix the definitions `V1` (first class, lines 1-1149)
and `V2` (second class, lines 1150-1653).

Times are Unix seconds as `Int` (the source computes
`Math.floor(Date.now() / 1000)`); we take the already-floored instant
`now` as a parameter.  Network effects are modelled by passing the
scripted responses of the server in as data and counting the calls
made.
-/

namespace Saas

/-- JavaScript truthiness of a nullable string field (`data.next`,
`this.#token`): `null`/`undefined` and the empty string are falsy. -/
def strTruthy : Option String → Bool
  | none => false
  | some s => s ≠ ""

/-! ## Token manager (`#getToken` / `#checkToken`) -/

/-- Body of a successful `POST {siteURL}/oauth2/token` response:
`data.data.access_token` and `data.data.expires_in`. -/
structure OAuthResponse where
  access_token : String
  expires_in : Int
deriving Repr, DecidableEq

/-- The token-related mutable fields of the client: `#token` (initially
`null`) and `#tokenRefresh` (initially `0`). -/
structure TokenState where
  token : Option String
  tokenRefresh : Int
deriving Repr, DecidableEq

/-- Initial field values: `#token = null`, `#tokenRefresh = 0`. -/
def TokenState.initial : TokenState := ⟨none, 0⟩

/-- The private method `#getToken` of the first class (index.js lines
38-60): on a successful exchange it sets
`#tokenRefresh = Math.floor(Date.now()/1000) + data.data.expires_in - 100`
and returns `data.data.access_token`.  There is no branch on the size of
`expires_in`. -/
def getTokenV1 (now : Int) (resp : OAuthResponse) (s : TokenState) :
    TokenState × String :=
  ({ s with tokenRefresh := now + resp.expires_in - 100 }, resp.access_token)

/-- The private method `#getToken` of the second class (index.js lines
1184-1201): same but with no safety margin:
`#tokenRefresh = now + expires_in`. -/
def getTokenV2 (now : Int) (resp : OAuthResponse) (s : TokenState) :
    TokenState × String :=
  ({ s with tokenRefresh := now + resp.expires_in }, resp.access_token)

/-- The private method `#checkToken` (index.js lines 63-73 / 1204-1210,
identical logic in both classes): if
`!this.#token || this.#tokenRefresh < now` then
`this.#token = await this.#getToken()`.  Returns the new state and the
number of OAuth2 network calls made (0 or 1). -/
def checkTokenV1 (now : Int) (resp : OAuthResponse) (s : TokenState) :
    TokenState × Nat :=
  if !strTruthy s.token || s.tokenRefresh < now then
    let p := getTokenV1 now resp s
    ({ p.1 with token := some p.2 }, 1)
  else
    (s, 0)

/-- Variant of `#checkToken` using the second-class `#getToken` (no
margin); same refresh condition. -/
def checkTokenV2 (now : Int) (resp : OAuthResponse) (s : TokenState) :
    TokenState × Nat :=
  if !strTruthy s.token || s.tokenRefresh < now then
    let p := getTokenV2 now resp s
    ({ p.1 with token := some p.2 }, 1)
  else
    (s, 0)

/-! ## HTTP verb gateway error handling (`#get` … `#delete`)

Each verb wraps the axios call in `try/catch`.  We embed only the
`catch` blocks: the transport failure is the input, the thrown value the
output. -/

/-- An axios failure: either the server answered with a non-2xx response
(`err.response` present, carrying `status`, `statusText` and
`config.url`, the request URL), or no response was received at all. -/
inductive TransportError where
  | withResponse (status : Int) (statusText : String) (url : String)
  | noResponse (message : String)
deriving Repr, DecidableEq

/-- What a verb method throws to its caller. -/
inductive ThrownError where
  /-- The normalized shape `{status, statusText, url}` built in the
  `catch` block. -/
  | apiError (status : Int) (statusText : String) (url : String)
  /-- The raw transport error rethrown unchanged. -/
  | raw (e : TransportError)
deriving Repr, DecidableEq

/-- Catch block of `#get` (lines 87-97), `#post` (113-123) and `#put`
(157-167) of the first class: `if (err.response) throw {status, statusText,
url} else throw err`. -/
def normalizeCatch (e : TransportError) : ThrownError :=
  match e with
  | .withResponse st txt u => .apiError st txt u
  | .noResponse m => .raw (.noResponse m)

/-- Catch block of `#patch` (lines 139-141) and `#delete` (lines
183-185) of the first class: `throw err`, with no branch on
`err.response`. -/
def rethrowCatch (e : TransportError) : ThrownError :=
  .raw e

/-! ## Query-string construction and pagination walker -/

/-- The `extra` accumulator loop shared by `getAllDetections` /
`getAllAccounts`:
`for (let option of Object.keys(options)) extra += "&" + option + "=" + options[option]`.
Options are modelled as a key/value list in `Object.keys` order. -/
def buildExtra (options : List (String × String)) : String :=
  options.foldl (fun extra kv => extra ++ "&" ++ kv.1 ++ "=" ++ kv.2) ""

/-- First-page path of `getAllDetections` in the first class (lines
315-327): `extra` is only built under `if (options)`, then
`next = "/detections?page=1" + extra`.  `none` models calling with the
`options` argument absent (`undefined`). -/
def getAllDetectionsFirstPathV1 (options : Option (List (String × String))) :
    String :=
  "/detections?page=1" ++ (match options with
    | none => ""
    | some o => buildExtra o)

/-- First-page path of `getAllAccounts` in the first class (lines
590-602), same guard: `next = "/accounts?page=1" + extra`. -/
def getAllAccountsFirstPathV1 (options : Option (List (String × String))) :
    String :=
  "/accounts?page=1" ++ (match options with
    | none => ""
    | some o => buildExtra o)

/-- First-page path of `getAllAccounts` in the second class (lines
1487-1496): `Object.keys(options)` is evaluated with no guard, so an
absent `options` raises `TypeError: Cannot convert undefined or null to
object` before any request is formed. -/
def getAllAccountsFirstPathV2 (options : Option (List (String × String))) :
    Except String String :=
  match options with
  | none => .error "TypeError: Cannot convert undefined or null to object"
  | some o => .ok ("/accounts?page=1" ++ buildExtra o)

/-- One paginated response body: `{results: T[], next: string|null}`. -/
structure Page (α : Type) where
  results : List α
  next : Option String
deriving Repr, DecidableEq

/-- The `while (data.next)` pagination loop of `getAllDetections` /
`getAllAccounts` (lines 328-334 / 603-609).  `next` is the current
`data.next`; `server` is the script of pages the mock server serves to
successive `#get` calls, in order (the loop strips the host prefix off
`data.next` before fetching, which does not affect which page arrives
next).  Returns the accumulated `results` concatenation and the number
of `#get` calls made, or `none` if the loop would fetch beyond the
script (i.e. it did not terminate within the served pages). -/
def walkPages {α : Type} (next : Option String) :
    List (Page α) → Option (List α × Nat)
  | [] => if strTruthy next then none else some ([], 0)
  | p :: rest =>
    if strTruthy next then
      match walkPages p.next rest with
      | some r => some (p.results ++ r.1, r.2 + 1)
      | none => none
    else
      some ([], 0)

/-- Method `getAllDetections` of the first class, run against a
scripted server: build the first-page path, then walk. -/
def getAllDetectionsV1 {α : Type} (options : Option (List (String × String)))
    (server : List (Page α)) : Option (List α × Nat) :=
  walkPages (some (getAllDetectionsFirstPathV1 options)) server

/-- Method `getAllAccounts` of the first class, run against a scripted
server. -/
def getAllAccountsV1 {α : Type} (options : Option (List (String × String)))
    (server : List (Page α)) : Option (List α × Nat) :=
  walkPages (some (getAllAccountsFirstPathV1 options)) server

/-- A page script is exhaustively consumed by the loop when every page
before the last carries a truthy `next` and the last page carries
`next = null`. -/
def pagesTerminate {α : Type} : List (Page α) → Bool
  | [] => false
  | [p] => p.next = none
  | p :: q :: rest => strTruthy p.next && pagesTerminate (q :: rest)

/-! ## Checkpoint walker (`getAccountChanges` / `getDetectionChanges`) -/

/-- One event-stream response body:
`{events: T[], remaining_count, next_checkpoint}`. -/
structure EventPage (α : Type) where
  events : List α
  remaining_count : Int
  next_checkpoint : Int
deriving Repr, DecidableEq

/-- The `while (data.remaining_count > 0)` loop of `getAccountChanges` /
`getDetectionChanges` (lines 200-205 / 260-265).  `remaining` and `cp`
are the current `data.remaining_count` and `data.next_checkpoint`;
`server` is the script of event pages served to successive `#get` calls.
Returns the accumulated `events` concatenation together with the list of
`from` values passed to the successive `#get` calls (so its length is
the number of fetches), or `none` if the loop would fetch beyond the
script. -/
def walkEvents {α : Type} (remaining : Int) (cp : Int) :
    List (EventPage α) → Option (List α × List Int)
  | [] => if remaining > 0 then none else some ([], [])
  | p :: rest =>
    if remaining > 0 then
      match walkEvents p.remaining_count p.next_checkpoint rest with
      | some r => some (p.events ++ r.1, cp :: r.2)
      | none => none
    else
      some ([], [])

/-- Method `getAccountChanges(checkpoint = 0)` (lines 193-210): starts
from `data = {remaining_count: 1, next_checkpoint: checkpoint}` and loops,
fetching `/events/account_scoring?limit=1000&from={data.next_checkpoint}`
each iteration. -/
def getAccountChanges {α : Type} (checkpoint : Int)
    (server : List (EventPage α)) : Option (List α × List Int) :=
  walkEvents 1 checkpoint server

/-- Method `getDetectionChanges(checkpoint = 0)` (lines 253-270):
identical loop against `/events/account_detection`. -/
def getDetectionChanges {α : Type} (checkpoint : Int)
    (server : List (EventPage α)) : Option (List α × List Int) :=
  walkEvents 1 checkpoint server

/-- An event-page script is exhaustively consumed when every page before
the last reports `remaining_count > 0` and the last reports
`remaining_count <= 0`. -/
def eventsTerminate {α : Type} : List (EventPage α) → Bool
  | [] => false
  | [p] => decide (p.remaining_count ≤ 0)
  | p :: q :: rest => decide (p.remaining_count > 0) && eventsTerminate (q :: rest)

/-! ## Tag read-modify-write operations -/

/-- Body sent by the tag-mutating `#patch` calls: `{tags: [...]}`. -/
structure TagPatchBody where
  tags : List String
deriving Repr, DecidableEq

/-- Methods `addDetectionTags` (lines 433-443) / `addAccountTags`
(lines 780-790) of the first class: after fetching the current tags of
the entity, `tags = tags.concat(existingTags)` — the supplied tags
first, the existing tags appended after — and that array is sent as the
PATCH body. -/
def addTagsBody (existingTags : List String) (tags : List String) :
    TagPatchBody :=
  ⟨tags ++ existingTags⟩

/-- The backwards splice loop of `deleteDetectionTag` (lines 454-458) /
`deleteAccountTag` (lines 801-805):
`for (i = len-1; i >= 0; i--) if (existingTags[i] == tag) splice(i, 1)`.
Iterating from the end and splicing out every element equal to `tag`
removes exactly all occurrences of `tag`, kept here as a structural
recursion over the array. -/
def spliceOutTag : List String → String → List String
  | [], _ => []
  | t :: rest, tag =>
    if t = tag then spliceOutTag rest tag else t :: spliceOutTag rest tag

/-- PATCH body sent by `deleteDetectionTag` / `deleteAccountTag` after
the splice loop ran over the fetched tags. -/
def deleteTagBody (existingTags : List String) (tag : String) :
    TagPatchBody :=
  ⟨spliceOutTag existingTags tag⟩

/-! ## Request URL formation -/

/-- URL string built by the verb methods of the first class:
`{siteURL}/api/{version}{path}` with `#version = "v" + version`. -/
def apiURL (siteURL : String) (version : Nat) (path : String) : String :=
  siteURL ++ "/api/" ++ "v" ++ toString version ++ path

/-- Path passed to `#delete` by `deleteTriageRule` in both classes
(line 957 and line 1651): the template is `` `/rules${ruleID}` ``, with
no separator between `/rules` and the ID. -/
def deleteTriageRulePath (ruleID : Nat) : String :=
  "/rules" ++ toString ruleID

/-- Path passed to `#get` by `getTriageRule` (line 917): the template is
`` `/rules/${ruleID}` ``. -/
def getTriageRulePath (ruleID : Nat) : String :=
  "/rules/" ++ toString ruleID

end Saas

namespace Saas

/-! ## Helper lemmas -/

/-- A string starting with a nonempty literal is truthy, so the
constant first-page paths are always truthy whatever `extra` was
appended. -/
theorem strTruthy_append (a e : String) (ha : a.length ≠ 0) :
    strTruthy (some (a ++ e)) = true := by
  simp only [strTruthy, decide_eq_true_iff, ne_eq]
  intro h
  have hl := congrArg String.length h
  simp [String.length_append] at hl
  exact ha hl.1

/-- A page script that terminates is nonempty. -/
theorem pagesTerminate_ne_nil {α : Type} {pages : List (Page α)}
    (h : pagesTerminate pages = true) : pages ≠ [] := by
  cases pages with
  | nil => simp [pagesTerminate] at h
  | cons p rest => simp

/-- An event-page script that terminates is nonempty. -/
theorem eventsTerminate_ne_nil {α : Type} {pages : List (EventPage α)}
    (h : eventsTerminate pages = true) : pages ≠ [] := by
  cases pages with
  | nil => simp [eventsTerminate] at h
  | cons p rest => simp

/-- The pagination loop, started on any truthy cursor against a
terminating page script, consumes exactly all pages: it accumulates the
concatenation of the `results` arrays in arrival order and performs one
`#get` per page. -/
theorem walkPages_complete {α : Type} :
    ∀ (pages : List (Page α)) (next : Option String),
      strTruthy next = true → pagesTerminate pages = true →
      walkPages next pages = some ((pages.map Page.results).flatten, pages.length)
  | [], _, _, hterm => by simp [pagesTerminate] at hterm
  | [p], next, h, hterm => by
    simp only [pagesTerminate, decide_eq_true_eq] at hterm
    show (if strTruthy next = true then
        match walkPages p.next [] with
        | some r => some (p.results ++ r.1, r.2 + 1)
        | none => none
      else some ([], 0)) = _
    rw [if_pos h, hterm]
    simp [walkPages, strTruthy]
  | p :: q :: rest, next, h, hterm => by
    simp only [pagesTerminate, Bool.and_eq_true] at hterm
    have ih := walkPages_complete (q :: rest) p.next hterm.1 hterm.2
    show (if strTruthy next = true then
        match walkPages p.next (q :: rest) with
        | some r => some (p.results ++ r.1, r.2 + 1)
        | none => none
      else some ([], 0)) = _
    rw [if_pos h, ih]
    simp

/-- The checkpoint loop, started with positive `remaining_count` against
a terminating event-page script, consumes exactly all pages: it
accumulates the concatenation of the `events` arrays in arrival order,
and the successive `from` values are the starting checkpoint followed by
the `next_checkpoint` of every response but the last. -/
theorem walkEvents_complete {α : Type} :
    ∀ (pages : List (EventPage α)) (remaining cp : Int),
      remaining > 0 → eventsTerminate pages = true →
      walkEvents remaining cp pages =
        some ((pages.map EventPage.events).flatten,
              cp :: pages.dropLast.map EventPage.next_checkpoint)
  | [], _, _, _, hterm => by simp [eventsTerminate] at hterm
  | [p], remaining, cp, hrem, hterm => by
    simp only [eventsTerminate, decide_eq_true_eq] at hterm
    have hstop : ¬ p.remaining_count > 0 := by omega
    simp [walkEvents, hrem, hstop]
  | p :: q :: rest, remaining, cp, hrem, hterm => by
    simp only [eventsTerminate, Bool.and_eq_true, decide_eq_true_eq] at hterm
    have ih := walkEvents_complete (q :: rest) p.remaining_count
      p.next_checkpoint hterm.1 hterm.2
    show (if remaining > 0 then
        match walkEvents p.remaining_count p.next_checkpoint (q :: rest) with
        | some r => some (p.events ++ r.1, cp :: r.2)
        | none => none
      else some ([], [])) = _
    rw [if_pos hrem, ih]
    simp

/-- The splice loop removes nothing when the tag has no occurrence. -/
theorem spliceOutTag_not_mem :
    ∀ (l : List String) (tag : String), tag ∉ l → spliceOutTag l tag = l
  | [], _, _ => rfl
  | t :: rest, tag, h => by
    have h1 : ¬ t = tag := fun e => h (e ▸ List.mem_cons_self t rest)
    have h2 : tag ∉ rest := fun m => h (List.mem_cons_of_mem _ m)
    simp [spliceOutTag, h1, spliceOutTag_not_mem rest tag h2]

example : checkTokenV1 10 ⟨"tok", 3600⟩ TokenState.initial =
    (⟨some "tok", 10 + 3600 - 100⟩, 1) := by decide

example : checkTokenV1 10 ⟨"tok", 3600⟩ ⟨some "old", 50⟩ =
    (⟨some "old", 50⟩, 0) := by decide

example : checkTokenV1 50 ⟨"tok", 3600⟩ ⟨some "old", 50⟩ =
    (⟨some "old", 50⟩, 0) := by decide

example : getAllDetectionsV1 (α := Nat) (some []) [⟨[1,2], some "u2"⟩, ⟨[3,4], some "u3"⟩, ⟨[5], none⟩] =
    some ([1,2,3,4,5], 3) := by decide

example : getAccountChanges (α := Nat) 7
    [⟨[1,2,3,4,5], 5, 40⟩, ⟨[6,7,8], 3, 80⟩, ⟨[], 0, 80⟩] =
    some ([1,2,3,4,5,6,7,8], [7, 40, 80]) := by decide

example : deleteTriageRulePath 123 = "/rules123" := by decide

example : getAllAccountsFirstPathV2 (some []) = .ok "/accounts?page=1" := rfl

/-! ## Claim theorems -/

/-- C1: for every finite page sequence served by fetch (each page before
the last carrying a truthy next cursor and the last a null one), the
pagination walk of getAllDetections and getAllAccounts returns the
concatenation of every page results array in page-arrival order and
makes exactly one fetch call per page, terminating on the page whose
next field is null. -/
theorem claim1_pagination_walk {α : Type}
    (options : Option (List (String × String))) (pages : List (Page α))
    (h : pagesTerminate pages = true) :
    getAllDetectionsV1 options pages =
      some ((pages.map Page.results).flatten, pages.length) ∧
    getAllAccountsV1 options pages =
      some ((pages.map Page.results).flatten, pages.length) := by
  have hd : strTruthy (some (getAllDetectionsFirstPathV1 options)) = true := by
    unfold getAllDetectionsFirstPathV1
    exact strTruthy_append _ _ (by decide)
  have ha : strTruthy (some (getAllAccountsFirstPathV1 options)) = true := by
    unfold getAllAccountsFirstPathV1
    exact strTruthy_append _ _ (by decide)
  exact ⟨walkPages_complete pages _ hd h, walkPages_complete pages _ ha h⟩

/-- Witness for C1 at the P3 instance: 3 pages with result arrays of
lengths 2, 2, 1, next populated on pages 1-2 and null on page 3, yield a
5-element sequence via exactly 3 fetches. -/
theorem claim1_pagination_walk_witness :
    pagesTerminate (α := Nat)
      [⟨[1, 2], some "https://brain.vectra.ai/api/v3/detections?page=2"⟩,
       ⟨[3, 4], some "https://brain.vectra.ai/api/v3/detections?page=3"⟩,
       ⟨[5], none⟩] = true ∧
    getAllDetectionsV1 (some [])
      [⟨[1, 2], some "https://brain.vectra.ai/api/v3/detections?page=2"⟩,
       ⟨[3, 4], some "https://brain.vectra.ai/api/v3/detections?page=3"⟩,
       ⟨[5], none⟩] = some ([1, 2, 3, 4, 5], 3) ∧
    getAllAccountsV1 (some [])
      [⟨[1, 2], some "https://brain.vectra.ai/api/v3/detections?page=2"⟩,
       ⟨[3, 4], some "https://brain.vectra.ai/api/v3/detections?page=3"⟩,
       ⟨[5], none⟩] = some ([1, 2, 3, 4, 5], 3) := by
  have h := claim1_pagination_walk (α := Nat) (some [])
    [⟨[1, 2], some "https://brain.vectra.ai/api/v3/detections?page=2"⟩,
     ⟨[3, 4], some "https://brain.vectra.ai/api/v3/detections?page=3"⟩,
     ⟨[5], none⟩] (by decide)
  exact ⟨by decide, h.1.trans (by decide), h.2.trans (by decide)⟩

/-- C2: for every finite event-page sequence (positive remaining_count
on every page but the last, non-positive on the last), the checkpoint
walk of getAccountChanges and getDetectionChanges returns the
concatenation of all events arrays in arrival order; the from values of
the successive fetches are the caller checkpoint followed by the
next_checkpoint of every response but the last, the fetch count equals
the page count, and at least one fetch occurs. -/
theorem claim2_checkpoint_walk {α : Type} (checkpoint : Int)
    (pages : List (EventPage α)) (h : eventsTerminate pages = true) :
    getAccountChanges checkpoint pages =
      some ((pages.map EventPage.events).flatten,
            checkpoint :: pages.dropLast.map EventPage.next_checkpoint) ∧
    getDetectionChanges checkpoint pages =
      some ((pages.map EventPage.events).flatten,
            checkpoint :: pages.dropLast.map EventPage.next_checkpoint) ∧
    (checkpoint :: pages.dropLast.map EventPage.next_checkpoint).length =
      pages.length ∧
    1 ≤ pages.length := by
  have hw := walkEvents_complete pages 1 checkpoint (by norm_num) h
  have hpos : 0 < pages.length := List.length_pos.mpr (eventsTerminate_ne_nil h)
  refine ⟨hw, hw, ?_, hpos⟩
  simp only [List.length_cons, List.length_map, List.length_dropLast]
  omega

/-- Witness for C2 at the P4 instance: remaining_count 5, 3, 0 with
event arrays of lengths 5, 3, 0 yield an 8-element sequence via exactly
3 fetches chained through next_checkpoint. -/
theorem claim2_checkpoint_walk_witness :
    eventsTerminate (α := Nat)
      [⟨[1, 2, 3, 4, 5], 5, 40⟩, ⟨[6, 7, 8], 3, 80⟩, ⟨[], 0, 80⟩] = true ∧
    getAccountChanges 7
      [⟨[1, 2, 3, 4, 5], 5, 40⟩, ⟨[6, 7, 8], 3, 80⟩, ⟨[], 0, 80⟩] =
      some ([1, 2, 3, 4, 5, 6, 7, 8], [7, 40, 80]) ∧
    getDetectionChanges 7
      [⟨[1, 2, 3, 4, 5], 5, 40⟩, ⟨[6, 7, 8], 3, 80⟩, ⟨[], 0, 80⟩] =
      some ([1, 2, 3, 4, 5, 6, 7, 8], [7, 40, 80]) := by
  have h := claim2_checkpoint_walk (α := Nat) 7
    [⟨[1, 2, 3, 4, 5], 5, 40⟩, ⟨[6, 7, 8], 3, 80⟩, ⟨[], 0, 80⟩] (by decide)
  exact ⟨by decide, h.1.trans (by decide), h.2.1.trans (by decide)⟩

/-- C3: a held token whose expiry instant lies strictly in the future is
returned unchanged by checkToken with no OAuth2 exchange; consequently,
starting with no token, an exchange at the first call followed by a
second call while that token is still valid issues exactly one OAuth2
network call in total. -/
theorem claim3_token_caching (s : TokenState) (now now₁ now₂ : Int)
    (r r₁ r₂ : OAuthResponse)
    (htok : strTruthy s.token = true) (hfut : now < s.tokenRefresh)
    (hacc : r₁.access_token ≠ "")
    (hvalid : now₂ ≤ now₁ + r₁.expires_in - 100) :
    checkTokenV1 now r s = (s, 0) ∧
    (checkTokenV1 now₁ r₁ TokenState.initial).2 +
      (checkTokenV1 now₂ r₂ (checkTokenV1 now₁ r₁ TokenState.initial).1).2
      = 1 := by
  constructor
  · have h1 : ¬ s.tokenRefresh < now := by omega
    simp [checkTokenV1, htok, h1]
  · have hfirst : checkTokenV1 now₁ r₁ TokenState.initial =
        (⟨some r₁.access_token, now₁ + r₁.expires_in - 100⟩, 1) := by
      simp [checkTokenV1, TokenState.initial, strTruthy, getTokenV1]
    rw [hfirst]
    have h2 : ¬ now₁ + r₁.expires_in - 100 < now₂ := by omega
    simp [checkTokenV1, strTruthy, hacc, h2]

/-- Witness for C3: a cached unexpired token at instant 10 is reused
with no exchange, and a fresh client calling at instants 0 and 300 with
a 3600-second token performs exactly one exchange. -/
theorem claim3_token_caching_witness :
    strTruthy (some "cached") = true ∧ ((10 : Int) < 1000) ∧
    checkTokenV1 10 ⟨"x", 3600⟩ ⟨some "cached", 1000⟩ =
      (⟨some "cached", 1000⟩, 0) ∧
    (checkTokenV1 0 ⟨"tok", 3600⟩ TokenState.initial).2 +
      (checkTokenV1 300 ⟨"tok2", 3600⟩
        (checkTokenV1 0 ⟨"tok", 3600⟩ TokenState.initial).1).2 = 1 := by
  have h := claim3_token_caching ⟨some "cached", 1000⟩ 10 0 300
    ⟨"x", 3600⟩ ⟨"tok", 3600⟩ ⟨"tok2", 3600⟩
    (by decide) (by decide) (by decide) (by decide)
  exact ⟨by decide, by decide, h.1, h.2⟩

/-- C4 counterexample: with now = 1000 and expires_in = 50 ≤ margin =
100, the first class stores tokenRefresh = 950, an instant strictly
before now — it is not clamped to now, refuting the claim that the
stored expiry never precedes now. -/
theorem claim4_clamp_counterexample :
    (getTokenV1 1000 ⟨"tok", 50⟩ TokenState.initial).1.tokenRefresh = 950 ∧
    (getTokenV1 1000 ⟨"tok", 50⟩ TokenState.initial).1.tokenRefresh ≠ 1000 ∧
    (getTokenV1 1000 ⟨"tok", 50⟩ TokenState.initial).1.tokenRefresh < 1000 := by
  decide

/-- C4 amended: after every successful OAuth2 exchange the first class
stores expiry now + expires_in - 100 unconditionally (the second class
stores now + expires_in, margin 0); there is no clamping, and when
expires_in < 100 the stored expiry precedes now (which still forces a
refresh at any later call). -/
theorem claim4_expiry_formula (now : Int) (r : OAuthResponse)
    (s : TokenState) :
    (getTokenV1 now r s).1.tokenRefresh = now + r.expires_in - 100 ∧
    (getTokenV2 now r s).1.tokenRefresh = now + r.expires_in ∧
    (r.expires_in < 100 → (getTokenV1 now r s).1.tokenRefresh < now) := by
  refine ⟨rfl, rfl, fun hsmall => ?_⟩
  simp only [getTokenV1]
  omega

/-- Witness for C4 amended at now = 1000, expires_in = 50. -/
theorem claim4_expiry_formula_witness :
    ((50 : Int) < 100) ∧
    (getTokenV1 1000 ⟨"tok", 50⟩ TokenState.initial).1.tokenRefresh < 1000 :=
  ⟨by decide,
   (claim4_expiry_formula 1000 ⟨"tok", 50⟩ TokenState.initial).2.2 (by decide)⟩

/-- C5 counterexample: at the exact instant now = tokenRefresh = 100
with a token held, checkToken performs no exchange and keeps the cached
token, refuting the claim that an exchange happens whenever now is
greater than or equal to the stored expiry. -/
theorem claim5_boundary_counterexample :
    (checkTokenV1 100 ⟨"new", 3600⟩ ⟨some "cached", 100⟩).2 = 0 ∧
    (checkTokenV1 100 ⟨"new", 3600⟩ ⟨some "cached", 100⟩).1 =
      ⟨some "cached", 100⟩ ∧
    ((100 : Int) ≥ 100) ∧ (some "cached" ≠ (none : Option String)) := by
  decide

/-- C5 amended: checkToken performs an OAuth2 exchange if and only if no
truthy token is held or now is strictly later than the stored expiry;
at the exact instant now equals the stored expiry the cached token is
reused with no exchange. -/
theorem claim5_refresh_condition (now : Int) (r : OAuthResponse)
    (s : TokenState) :
    ((checkTokenV1 now r s).2 = 1 ↔
      (strTruthy s.token = false ∨ s.tokenRefresh < now)) ∧
    (strTruthy s.token = true → s.tokenRefresh = now →
      checkTokenV1 now r s = (s, 0)) := by
  constructor
  · by_cases h1 : strTruthy s.token = true
    · by_cases h2 : s.tokenRefresh < now
      · simp [checkTokenV1, h1, h2]
      · simp [checkTokenV1, h1, h2]
    · have h1f : strTruthy s.token = false := by
        revert h1
        cases strTruthy s.token <;> simp
      simp [checkTokenV1, h1f]
  · intro ht he
    have h2 : ¬ s.tokenRefresh < now := by omega
    simp [checkTokenV1, ht, h2]

/-- Witness for C5 amended: a held token at the boundary instant
now = tokenRefresh = 100 is reused, and the iff evaluates accordingly. -/
theorem claim5_refresh_condition_witness :
    strTruthy (some "cached") = true ∧
    checkTokenV1 100 ⟨"new", 3600⟩ ⟨some "cached", 100⟩ =
      (⟨some "cached", 100⟩, 0) := by
  have h := claim5_refresh_condition 100 ⟨"new", 3600⟩ ⟨some "cached", 100⟩
  exact ⟨by decide, h.2 (by decide) (by decide)⟩

/-- C6 counterexample: the patch and delete verbs rethrow a transport
failure that carries a 404 response as the raw transport error, not the
normalized status/statusText/url shape, refuting the claim that all
five verbs normalize. -/
theorem claim6_patch_raw_counterexample :
    rethrowCatch
      (.withResponse 404 "Not Found" "https://brain.vectra.ai/api/v3/detections/999") =
      .raw (.withResponse 404 "Not Found"
        "https://brain.vectra.ai/api/v3/detections/999") ∧
    rethrowCatch
      (.withResponse 404 "Not Found" "https://brain.vectra.ai/api/v3/detections/999") ≠
      .apiError 404 "Not Found" "https://brain.vectra.ai/api/v3/detections/999" := by
  decide

/-- C6 amended: the get, post and put verbs of the first class throw the
normalized error carrying exactly the response status, status text and
request URL when a response is attached, and rethrow the raw transport
error when none was received; the patch and delete verbs rethrow the
raw transport error unchanged in every case. -/
theorem claim6_error_shapes (st : Int) (txt u m : String)
    (e : TransportError) :
    normalizeCatch (.withResponse st txt u) = .apiError st txt u ∧
    normalizeCatch (.noResponse m) = .raw (.noResponse m) ∧
    rethrowCatch e = .raw e :=
  ⟨rfl, rfl, rfl⟩

/-- C7 counterexample: adding tag new to an entity whose current tags
are existing sends the PATCH body with the supplied tag first, not the
existing tags first as the claim states. -/
theorem claim7_tag_order_counterexample :
    addTagsBody ["existing"] ["new"] = ⟨["new", "existing"]⟩ ∧
    addTagsBody ["existing"] ["new"] ≠ ⟨["existing", "new"]⟩ := by
  decide

/-- C7 amended: addDetectionTags and addAccountTags perform a
read-modify-write whose PATCH body lists the supplied tags first and
the fetched existing tags after them. -/
theorem claim7_add_tags_order (existingTags tags : List String) :
    (addTagsBody existingTags tags).tags = tags ++ existingTags :=
  rfl

/-- C8: the path deleteTriageRule hands to the delete verb concatenates
the rule ID directly after /rules with no separating slash, so the
request URL is {siteURL}/api/v3/rules123 rather than the documented
/rules/123 path that the sibling getTriageRule builds. -/
theorem claim8_delete_rule_missing_slash :
    deleteTriageRulePath 123 = "/rules123" ∧
    deleteTriageRulePath 123 ≠ "/rules/123" ∧
    apiURL "https://brain.vectra.ai" 3 (deleteTriageRulePath 123) =
      "https://brain.vectra.ai/api/v3/rules123" ∧
    getTriageRulePath 123 = "/rules/123" := by
  decide

/-- C9: removing a tag that has no occurrence in the fetched tag set
leaves the set unchanged, so the PATCH body of deleteDetectionTag and
deleteAccountTag carries contents equal to the fetched set. -/
theorem claim9_delete_absent_tag_noop (existingTags : List String)
    (tag : String) (h : tag ∉ existingTags) :
    deleteTagBody existingTags tag = ⟨existingTags⟩ := by
  simp [deleteTagBody, spliceOutTag_not_mem existingTags tag h]

/-- Witness for C9: removing phishing from a tag set not containing it
is a no-op. -/
theorem claim9_delete_absent_tag_noop_witness :
    "phishing" ∉ ["critical", "reviewed"] ∧
    deleteTagBody ["critical", "reviewed"] "phishing" =
      ⟨["critical", "reviewed"]⟩ :=
  ⟨by decide,
   claim9_delete_absent_tag_noop ["critical", "reviewed"] "phishing" (by decide)⟩

/-- C10: with an empty options object both list operations build clean
first-page paths with no stray separators, and the first class also
tolerates an absent options argument; but the second class evaluates
Object.keys on the absent argument and fails with a TypeError before
any request is formed — the failing evaluation is recorded alongside
the clean paths. -/
theorem claim10_empty_options :
    getAllDetectionsFirstPathV1 (some []) = "/detections?page=1" ∧
    getAllDetectionsFirstPathV1 none = "/detections?page=1" ∧
    getAllAccountsFirstPathV1 none = "/accounts?page=1" ∧
    getAllAccountsFirstPathV2 (some []) = .ok "/accounts?page=1" ∧
    getAllAccountsFirstPathV2 none =
      .error "TypeError: Cannot convert undefined or null to object" :=
  ⟨rfl, rfl, rfl, rfl, rfl⟩

end Saas
